import Mathlib

/-!
Verification development for the cncjs-pendant-gamepad input-translation
engine (src/src/actions.ts) and the Shapeoko dialect sender
(src/src/gcode-shapeoko.ts).

Conventions of the embedding:
* Axis values are modelled as rationals; JavaScript truthiness of a numeric
  axis value is modelled as `≠ 0` (the serial/gamepad layers never feed NaN
  into the fields used here).
* Button values (0/1 in the source) are modelled as `Bool`; a key missing
  from the snapshot dictionary (undefined, falsy) is the default `false`.
* Calls into the Command Abstraction Layer (the `GcodeSender` methods) and
  jog-timer manipulations are collected, in source order, into a list of
  `Effect`s returned by the translated functions.
-/

namespace Pendant

/- Constants, src/src/actions.ts lines 27-43. -/

def DEADRANGE : ℚ := 0.10

def JOG_INTERVAL : ℚ := 100

def VXY_LOW : ℚ := 300 * JOG_INTERVAL / 60000

def VXY_MED : ℚ := 3000 * JOG_INTERVAL / 60000

def CXY_LOW : ℚ := 0.5

def CXY_MED : ℚ := 1.0

def VZ_LOW : ℚ := 250 * JOG_INTERVAL / 60000

def VZ_MED : ℚ := 500 * JOG_INTERVAL / 60000

def CZ_LOW : ℚ := 0.1

def CZ_MED : ℚ := 1.0

def CREEP_INTERVAL : ℚ := 250

/-- The axis entries of a `GamepadState` that actions.ts reads. -/
structure AxisStates where
  AXIS_HAT_X : ℚ := 0
  AXIS_HAT_Y : ℚ := 0
  AXIS_X : ℚ := 0
  AXIS_Y : ℚ := 0
  AXIS_Z : ℚ := 0
  AXIS_RZ : ℚ := 0
  AXIS_LTRIGGER : ℚ := 0
  AXIS_RTRIGGER : ℚ := 0
  deriving DecidableEq

/-- The button entries of a `GamepadState` that actions.ts reads. -/
structure ButtonStates where
  KEYCODE_BUTTON_L1 : Bool := false
  KEYCODE_BUTTON_R1 : Bool := false
  KEYCODE_BUTTON_LTRIGGER : Bool := false
  KEYCODE_BUTTON_RTRIGGER : Bool := false
  KEYCODE_HOME : Bool := false
  KEYCODE_BUTTON_THUMBR : Bool := false
  KEYCODE_BUTTON_THUMBL : Bool := false
  KEYCODE_BUTTON_A : Bool := false
  KEYCODE_BUTTON_B : Bool := false
  KEYCODE_BUTTON_X : Bool := false
  KEYCODE_BUTTON_Y : Bool := false
  deriving DecidableEq

/-- A controller snapshot (`GamepadState` in gamepad_controller). -/
structure GamepadState where
  axisStates : AxisStates := {}
  buttonStates : ButtonStates := {}
  deriving DecidableEq

/- Modifier-key states, src/src/actions.ts lines 122-130.  Each definition
mirrors one `const` line of `Actions.onUse`. -/

/-- `const deadmanSlow = b.KEYCODE_BUTTON_L1 || b.KEYCODE_BUTTON_R1;` -/
def deadmanSlow (state : GamepadState) : Bool :=
  state.buttonStates.KEYCODE_BUTTON_L1 || state.buttonStates.KEYCODE_BUTTON_R1

/-- `const deadmanFast = b.KEYCODE_BUTTON_LTRIGGER || b.KEYCODE_BUTTON_RTRIGGER
     || a.AXIS_LTRIGGER == 1 || a.AXIS_RTRIGGER == 1` -/
def deadmanFast (state : GamepadState) : Bool :=
  state.buttonStates.KEYCODE_BUTTON_LTRIGGER || state.buttonStates.KEYCODE_BUTTON_RTRIGGER
    || decide (state.axisStates.AXIS_LTRIGGER = 1) || decide (state.axisStates.AXIS_RTRIGGER = 1)

/-- `const deadmanZ = deadmanSlow && deadmanFast;` -/
def deadmanZ (state : GamepadState) : Bool :=
  deadmanSlow state && deadmanFast state

/-- `const deadmanXY = (deadmanSlow || deadmanFast) && !deadmanZ;` -/
def deadmanXY (state : GamepadState) : Bool :=
  (deadmanSlow state || deadmanFast state) && !deadmanZ state

/-- `const shiftKey = b.KEYCODE_HOME;` -/
def shiftKey (state : GamepadState) : Bool :=
  state.buttonStates.KEYCODE_HOME

/-- `const shiftKeyOnly = shiftKey && !deadmanSlow && !deadmanFast;` -/
def shiftKeyOnly (state : GamepadState) : Bool :=
  shiftKey state && !deadmanSlow state && !deadmanFast state

/-- `const deadmanXYOnly = deadmanXY && !shiftKey;` -/
def deadmanXYOnly (state : GamepadState) : Bool :=
  deadmanXY state && !shiftKey state

/-- `const deadmanZOnly = deadmanZ && !shiftKey;` -/
def deadmanZOnly (state : GamepadState) : Bool :=
  deadmanZ state && !shiftKey state

/-- `const unmodified = !deadmanSlow && !deadmanFast && !shiftKey;` -/
def unmodified (state : GamepadState) : Bool :=
  !deadmanSlow state && !deadmanFast state && !shiftKey state

/- Speed selection, src/src/actions.ts lines 139-151. -/

/-- `const jogVelocity = deadmanSlow ? VXY_LOW : VXY_MED;` -/
def jogVelocity (state : GamepadState) : ℚ :=
  if deadmanSlow state then VXY_LOW else VXY_MED

/-- `const creepDist = deadmanSlow ? CXY_LOW : CXY_MED;` -/
def creepDist (state : GamepadState) : ℚ :=
  if deadmanSlow state then CXY_LOW else CXY_MED

/-- `const jogVelocityZ = a.AXIS_HAT_X ? VZ_LOW : VZ_MED;` (JS truthiness) -/
def jogVelocityZ (state : GamepadState) : ℚ :=
  if state.axisStates.AXIS_HAT_X ≠ 0 then VZ_LOW else VZ_MED

/-- `const creepDistZ = a.AXIS_HAT_X ? CZ_LOW : CZ_MED;` (JS truthiness) -/
def creepDistZ (state : GamepadState) : ℚ :=
  if state.axisStates.AXIS_HAT_X ≠ 0 then CZ_LOW else CZ_MED

/-- `class XYZCoords` of actions.ts: the next jogging motion destination
(each field defaults to `0.0` in the source). -/
structure XYZCoords where
  move_x_axis : ℚ := 0
  move_y_axis : ℚ := 0
  move_z_axis : ℚ := 0
  deriving DecidableEq

/-- One call into the Command Abstraction Layer (a `GcodeSender` method),
as invoked from actions.ts.  The feedrate handed to `moveGantryJogToXYZ`
is always `jogGantrySpeed x y z` of the distances (see `Actions.jogGantry`),
so it is not repeated in the payload. -/
inductive CalCall where
  | moveGantryJogToXYZ (x y z : ℚ)
  | recordGantryZeroWCSX
  | recordGantryZeroWCSY
  | recordGantryZeroWCSZ
  | performZProbing
  | controllerReset
  | controllerUnlock
  | controllerCyclestart
  | controllerFeedhold
  | performHoming
  | recordGantryReturn
  | recordGantryHome
  | moveGantryReturn
  | moveGantryZProbePos
  | moveGantryWCSHome
  | moveGantryHome
  | controllerStart
  | controllerStop
  | controllerResume
  | controllerPause
  deriving DecidableEq

/-- An observable side effect of `Actions.onUse` / `Actions.jogFunction`:
a Command Abstraction Layer call, a `clearTimeout(this.jogTimer)`, or a
`this.jogTimer = setTimeout(this.jogFunction, ms)`. -/
inductive Effect where
  | cal (c : CalCall)
  | clearJogTimer
  | setJogTimer (ms : ℚ)
  deriving DecidableEq

/-- `Actions.jogGantry(x, y, z)` invokes
`gcodeSender.moveGantryJogToXYZ(x, y, z, speed)`. -/
def jogGantry (x y z : ℚ) : CalCall :=
  CalCall.moveGantryJogToXYZ x y z

/-- The feedrate computed by `Actions.jogGantry`:
`dist = Math.sqrt(x*x + y*y + z*z); speed = dist * 60000 / JOG_INTERVAL`. -/
noncomputable def jogGantrySpeed (x y z : ℚ) : ℝ :=
  Real.sqrt ((x * x + y * y + z * z : ℚ) : ℝ) * 60000 / (JOG_INTERVAL : ℝ)

/-- The mutable fields of the `Actions` instance that `onUse` and
`jogFunction` read and write.  `gamepadState` starts as the empty object
`{} as GamepadState`, modelled by `none`. -/
structure ActionsState where
  gamepadState : Option GamepadState := none
  axisInstructions : XYZCoords := {}
  thumbRightActive : Bool := false
  thumbLeftActive : Bool := false
  deriving DecidableEq

/-- actions.ts lines 160-169: enable/disable axis movement via the thumb
buttons (fresh presses only, detected via the triggering id). -/
def applyThumbToggles (id : String) (b : ButtonStates) (s : ActionsState) : ActionsState :=
  let s1 :=
    if id = "KEYCODE_BUTTON_THUMBR" ∧ b.KEYCODE_BUTTON_THUMBR then
      { s with thumbRightActive := !s.thumbRightActive, thumbLeftActive := false }
    else s
  if id = "KEYCODE_BUTTON_THUMBL" ∧ b.KEYCODE_BUTTON_THUMBL then
    { s1 with thumbLeftActive := !s1.thumbLeftActive, thumbRightActive := false }
  else s1

/-- actions.ts lines 170-175: for safety, if the dpad is going to cause
movement, disable the sticks. -/
def applyDpadSafety (id : String) (state : GamepadState) (s : ActionsState) : ActionsState :=
  if (deadmanXY state ∨ deadmanZ state) ∧ (id = "AXIS_HAT_X" ∨ id = "AXIS_HAT_Y") then
    { s with thumbLeftActive := false, thumbRightActive := false }
  else s

/-- actions.ts lines 183-201: X axis movement.  `latch` is the latch state
after the toggle/safety updates; returns the updated `ai` and the creep
effects emitted inside this block. -/
def xAxisBlock (id : String) (state : GamepadState) (latch : ActionsState)
    (ai : XYZCoords) : XYZCoords × List Effect :=
  let a := state.axisStates
  if deadmanXYOnly state then
    let ai := if a.AXIS_HAT_X ≠ 0 then
        { ai with move_x_axis := a.AXIS_HAT_X * jogVelocity state } else ai
    let effs := if a.AXIS_HAT_X ≠ 0 ∧ id = "AXIS_HAT_X" then
        [Effect.clearJogTimer,
         Effect.cal (jogGantry (creepDist state * a.AXIS_HAT_X) 0 0),
         Effect.setJogTimer CREEP_INTERVAL]
      else []
    let ai := if latch.thumbLeftActive ∧ |a.AXIS_X| > DEADRANGE then
        { ai with move_x_axis := a.AXIS_X * jogVelocity state } else ai
    let ai := if latch.thumbRightActive ∧ |a.AXIS_RZ| > DEADRANGE then
        { ai with move_x_axis := a.AXIS_RZ * jogVelocity state } else ai
    (ai, effs)
  else (ai, [])

/-- actions.ts lines 209-227: Y axis movement. -/
def yAxisBlock (id : String) (state : GamepadState) (latch : ActionsState)
    (ai : XYZCoords) : XYZCoords × List Effect :=
  let a := state.axisStates
  if deadmanXYOnly state then
    let ai := if a.AXIS_HAT_Y ≠ 0 then
        { ai with move_y_axis := -(a.AXIS_HAT_Y * jogVelocity state) } else ai
    let effs := if a.AXIS_HAT_Y ≠ 0 ∧ id = "AXIS_HAT_Y" then
        [Effect.clearJogTimer,
         Effect.cal (jogGantry 0 (creepDist state * -a.AXIS_HAT_Y) 0),
         Effect.setJogTimer CREEP_INTERVAL]
      else []
    let ai := if latch.thumbLeftActive ∧ |a.AXIS_Y| > DEADRANGE then
        { ai with move_y_axis := -(a.AXIS_Y * jogVelocity state) } else ai
    let ai := if latch.thumbRightActive ∧ |a.AXIS_Z| > DEADRANGE then
        { ai with move_y_axis := -(a.AXIS_Z * jogVelocity state) } else ai
    (ai, effs)
  else (ai, [])

/-- actions.ts lines 238-262: Z axis movement (conflicts between the two hat
axes resolved in favor of AXIS_HAT_X). -/
def zAxisBlock (id : String) (state : GamepadState) (ai : XYZCoords) :
    XYZCoords × List Effect :=
  let a := state.axisStates
  if deadmanZOnly state then
    let ai := if a.AXIS_HAT_X ≠ 0 then
        { ai with move_z_axis := a.AXIS_HAT_X * jogVelocityZ state } else ai
    let e1 := if a.AXIS_HAT_X ≠ 0 ∧ id = "AXIS_HAT_X" then
        [Effect.clearJogTimer,
         Effect.cal (jogGantry 0 0 (creepDistZ state * a.AXIS_HAT_X)),
         Effect.setJogTimer CREEP_INTERVAL]
      else []
    let ai := if a.AXIS_HAT_Y ≠ 0 ∧ a.AXIS_HAT_X = 0 then
        { ai with move_z_axis := -(a.AXIS_HAT_Y * jogVelocityZ state) } else ai
    let e2 := if a.AXIS_HAT_Y ≠ 0 ∧ a.AXIS_HAT_X = 0 ∧ id = "AXIS_HAT_Y" then
        [Effect.clearJogTimer,
         Effect.cal (jogGantry 0 0 (creepDistZ state * -a.AXIS_HAT_Y)),
         Effect.setJogTimer CREEP_INTERVAL]
      else []
    (ai, e1 ++ e2)
  else (ai, [])

/-- actions.ts lines 275-284: the dpad buttons when shifted. -/
def shiftedDpadBlock (id : String) (state : GamepadState) : List Effect :=
  let a := state.axisStates
  if shiftKeyOnly state then
    (if id = "AXIS_HAT_X" ∧ a.AXIS_HAT_X = -1 then [Effect.cal CalCall.recordGantryZeroWCSX] else [])
      ++ (if id = "AXIS_HAT_X" ∧ a.AXIS_HAT_X = 1 then [Effect.cal CalCall.recordGantryZeroWCSY] else [])
      ++ (if id = "AXIS_HAT_Y" ∧ a.AXIS_HAT_Y = -1 then [Effect.cal CalCall.recordGantryZeroWCSZ] else [])
      ++ (if id = "AXIS_HAT_Y" ∧ a.AXIS_HAT_Y = 1 then [Effect.cal CalCall.performZProbing] else [])
  else []

/-- actions.ts lines 291-303: the back/select and start/forward buttons. -/
def backStartBlock (id : String) (state : GamepadState) : List Effect :=
  (if id = "KEYCODE_BACK" then
      if shiftKeyOnly state then [Effect.cal CalCall.controllerReset]
      else if unmodified state then [Effect.cal CalCall.controllerUnlock]
      else []
    else [])
    ++ (if id = "KEYCODE_BUTTON_START" then
      if shiftKeyOnly state then [Effect.cal CalCall.controllerCyclestart]
      else if unmodified state then [Effect.cal CalCall.controllerFeedhold]
      else if deadmanXYOnly state then [Effect.cal CalCall.performHoming]
      else []
    else [])

/-- actions.ts lines 312-339: the ABXY buttons under each composite
condition. -/
def abxyBlock (id : String) (state : GamepadState) : List Effect :=
  let b := state.buttonStates
  if shiftKeyOnly state then
    if id = "KEYCODE_BUTTON_A" ∧ b.KEYCODE_BUTTON_A then [Effect.cal CalCall.recordGantryReturn]
    else if id = "KEYCODE_BUTTON_B" ∧ b.KEYCODE_BUTTON_B then []
    else if id = "KEYCODE_BUTTON_X" ∧ b.KEYCODE_BUTTON_X then []
    else if id = "KEYCODE_BUTTON_Y" ∧ b.KEYCODE_BUTTON_Y then [Effect.cal CalCall.recordGantryHome]
    else []
  else if deadmanXYOnly state then
    if id = "KEYCODE_BUTTON_A" ∧ b.KEYCODE_BUTTON_A then [Effect.cal CalCall.moveGantryReturn]
    else if id = "KEYCODE_BUTTON_B" ∧ b.KEYCODE_BUTTON_B then [Effect.cal CalCall.moveGantryZProbePos]
    else if id = "KEYCODE_BUTTON_X" ∧ b.KEYCODE_BUTTON_X then [Effect.cal CalCall.moveGantryWCSHome]
    else if id = "KEYCODE_BUTTON_Y" ∧ b.KEYCODE_BUTTON_Y then [Effect.cal CalCall.moveGantryHome]
    else []
  else if unmodified state then
    if id = "KEYCODE_BUTTON_A" ∧ b.KEYCODE_BUTTON_A then [Effect.cal CalCall.controllerStart]
    else if id = "KEYCODE_BUTTON_B" ∧ b.KEYCODE_BUTTON_B then [Effect.cal CalCall.controllerStop]
    else if id = "KEYCODE_BUTTON_X" ∧ b.KEYCODE_BUTTON_X then [Effect.cal CalCall.controllerResume]
    else if id = "KEYCODE_BUTTON_Y" ∧ b.KEYCODE_BUTTON_Y then [Effect.cal CalCall.controllerPause]
    else []
  else []

/-- `Actions.onUse(id, state)`, actions.ts lines 113-340: the translated
event reducer.  Returns the updated mutable state and the effects in the
order the source emits them. -/
def onUse (id : String) (state : GamepadState) (s : ActionsState) :
    ActionsState × List Effect :=
  let s1 := applyThumbToggles id state.buttonStates s
  let s2 := applyDpadSafety id state s1
  let x := xAxisBlock id state s2 {}
  let y := yAxisBlock id state s2 x.1
  let z := zAxisBlock id state y.1
  let s3 := { s2 with gamepadState := some state, axisInstructions := z.1 }
  (s3, x.2 ++ y.2 ++ z.2
    ++ shiftedDpadBlock id state ++ backStartBlock id state ++ abxyBlock id state)

/-- `Actions.jogFunction()`, actions.ts lines 349-362: the heartbeat.  It
always reschedules itself first; it emits a jog only when a gamepad state
has been stored and the pending vector is nonzero.  (The source's second
guard, `Object.keys(ai).length === 0`, is never true because
`axisInstructions` always holds a constructed `XYZCoords`.) -/
def jogFunction (s : ActionsState) : List Effect :=
  let resched := [Effect.setJogTimer JOG_INTERVAL]
  match s.gamepadState with
  | none => resched
  | some _ =>
    let ai := s.axisInstructions
    if ai.move_x_axis = 0 ∧ ai.move_y_axis = 0 ∧ ai.move_z_axis = 0 then resched
    else resched ++ [Effect.cal (jogGantry ai.move_x_axis ai.move_y_axis ai.move_z_axis)]

end Pendant

namespace Pendant

/-- C1: for every controller snapshot, the four composite modifier conditions
`unmodified`, `shiftKeyOnly`, `deadmanXYOnly`, `deadmanZOnly` computed by
`Actions.onUse` are mutually exclusive: at most one of them is true. -/
theorem composite_conditions_mutually_exclusive (state : GamepadState) :
    [unmodified state, shiftKeyOnly state, deadmanXYOnly state,
      deadmanZOnly state].count true ≤ 1 := by
  cases hs : deadmanSlow state <;> cases hf : deadmanFast state <;>
    cases hk : shiftKey state <;>
      simp [unmodified, shiftKeyOnly, deadmanXYOnly, deadmanZOnly, deadmanXY,
        deadmanZ, hs, hf, hk, List.count_cons]

/-- The C2 scenario snapshot: L1 held, D-pad right (`AXIS_HAT_X = 1`), every
other modifier released. -/
def snapSlowHatX : GamepadState :=
  { axisStates := { AXIS_HAT_X := 1 }, buttonStates := { KEYCODE_BUTTON_L1 := true } }

/-- The engine state produced by the C2 scenario event. -/
def stateAfterSlowHatX : ActionsState :=
  { gamepadState := some snapSlowHatX, axisInstructions := { move_x_axis := VXY_LOW },
    thumbRightActive := false, thumbLeftActive := false }

/-- C2: for an `onUse` event triggered by `AXIS_HAT_X` on a snapshot with
`L1 = 1`, `AXIS_HAT_X = 1` and all other modifiers released, the engine
computes `deadmanXYOnly = true`, immediately emits exactly one creep move
`(CXY_LOW, 0, 0)` through the Command Abstraction Layer and restarts the
heartbeat timer with the longer `CREEP_INTERVAL`; a subsequent heartbeat tick
while the input is still held emits a relative jog with `dx = VXY_LOW`, whose
feedrate (Euclidean distance times `60000 / JOG_INTERVAL`) equals
`VXY_LOW * 60000 / JOG_INTERVAL`. -/
theorem creep_then_heartbeat_scenario (s : ActionsState) :
    deadmanXYOnly snapSlowHatX = true ∧
    onUse "AXIS_HAT_X" snapSlowHatX s =
      (stateAfterSlowHatX,
       [Effect.clearJogTimer, Effect.cal (jogGantry CXY_LOW 0 0),
        Effect.setJogTimer CREEP_INTERVAL]) ∧
    JOG_INTERVAL < CREEP_INTERVAL ∧
    jogFunction stateAfterSlowHatX =
      [Effect.setJogTimer JOG_INTERVAL, Effect.cal (jogGantry VXY_LOW 0 0)] ∧
    jogGantrySpeed VXY_LOW 0 0 = ((VXY_LOW * 60000 / JOG_INTERVAL : ℚ) : ℝ) := by
  refine ⟨?_, ?_, ?_, ?_, ?_⟩
  · norm_num [deadmanXYOnly, deadmanXY, deadmanZ, deadmanSlow, deadmanFast, shiftKey,
      snapSlowHatX]
  · norm_num [onUse, applyThumbToggles, applyDpadSafety, xAxisBlock, yAxisBlock, zAxisBlock,
      shiftedDpadBlock, backStartBlock, abxyBlock, deadmanXYOnly, deadmanZOnly, shiftKeyOnly,
      unmodified, deadmanXY, deadmanZ, deadmanSlow, deadmanFast, shiftKey, jogVelocity,
      creepDist, jogVelocityZ, creepDistZ, snapSlowHatX, stateAfterSlowHatX, jogGantry,
      VXY_LOW, VXY_MED, CXY_LOW, CXY_MED, JOG_INTERVAL, DEADRANGE]
    decide
  · norm_num [JOG_INTERVAL, CREEP_INTERVAL]
  · norm_num [jogFunction, stateAfterSlowHatX, VXY_LOW, JOG_INTERVAL, jogGantry]
  · have h4 : ((VXY_LOW * VXY_LOW + 0 * 0 + 0 * 0 : ℚ) : ℝ) = (1 / 2 : ℝ) ^ 2 := by
      norm_num [VXY_LOW, JOG_INTERVAL]
    rw [jogGantrySpeed, h4, Real.sqrt_sq (by norm_num : (0 : ℝ) ≤ 1 / 2)]
    norm_num [VXY_LOW, JOG_INTERVAL]

/- Projection lemmas: the fields of the state returned by `onUse` in terms of
the translated source blocks.  All hold by unfolding `onUse`. -/

lemma onUse_thumbLeft (id : String) (st : GamepadState) (s : ActionsState) :
    (onUse id st s).1.thumbLeftActive
      = (applyDpadSafety id st (applyThumbToggles id st.buttonStates s)).thumbLeftActive := rfl

lemma onUse_thumbRight (id : String) (st : GamepadState) (s : ActionsState) :
    (onUse id st s).1.thumbRightActive
      = (applyDpadSafety id st (applyThumbToggles id st.buttonStates s)).thumbRightActive := rfl

lemma onUse_axisInstructions (id : String) (st : GamepadState) (s : ActionsState) :
    (onUse id st s).1.axisInstructions
      = (zAxisBlock id st
          (yAxisBlock id st (applyDpadSafety id st (applyThumbToggles id st.buttonStates s))
            (xAxisBlock id st (applyDpadSafety id st (applyThumbToggles id st.buttonStates s))
              {}).1).1).1 := rfl

lemma onUse_effects (id : String) (st : GamepadState) (s : ActionsState) :
    (onUse id st s).2
      = (xAxisBlock id st (applyDpadSafety id st (applyThumbToggles id st.buttonStates s)) {}).2
        ++ (yAxisBlock id st (applyDpadSafety id st (applyThumbToggles id st.buttonStates s))
            (xAxisBlock id st (applyDpadSafety id st (applyThumbToggles id st.buttonStates s))
              {}).1).2
        ++ (zAxisBlock id st
            (yAxisBlock id st (applyDpadSafety id st (applyThumbToggles id st.buttonStates s))
              (xAxisBlock id st (applyDpadSafety id st (applyThumbToggles id st.buttonStates s))
                {}).1).1).2
        ++ shiftedDpadBlock id st ++ backStartBlock id st ++ abxyBlock id st := rfl

/-- C3: toggle events keep the stick latches mutually exclusive.  A fresh
press of the right-thumb button flips the right latch and forces the left
latch false; a fresh press of the left-thumb button flips the left latch and
forces the right latch false; and if the latches were not both true before
an arbitrary event, they are not both true after it. -/
theorem thumb_latches_mutually_exclusive (id : String) (st : GamepadState) (s : ActionsState) :
    (id = "KEYCODE_BUTTON_THUMBR" → st.buttonStates.KEYCODE_BUTTON_THUMBR = true →
      (onUse id st s).1.thumbRightActive = !s.thumbRightActive ∧
      (onUse id st s).1.thumbLeftActive = false) ∧
    (id = "KEYCODE_BUTTON_THUMBL" → st.buttonStates.KEYCODE_BUTTON_THUMBL = true →
      (onUse id st s).1.thumbLeftActive = !s.thumbLeftActive ∧
      (onUse id st s).1.thumbRightActive = false) ∧
    (¬(s.thumbLeftActive = true ∧ s.thumbRightActive = true) →
      ¬((onUse id st s).1.thumbLeftActive = true ∧
        (onUse id st s).1.thumbRightActive = true)) := by
  have hne : ¬("KEYCODE_BUTTON_THUMBR" : String) = "KEYCODE_BUTTON_THUMBL" := by decide
  simp only [onUse_thumbLeft, onUse_thumbRight, applyDpadSafety, applyThumbToggles]
  split_ifs <;> simp_all

/-- Witness for C3 at a concrete fresh right-thumb press from the default
engine state. -/
theorem thumb_latches_mutually_exclusive_witness :
    (onUse "KEYCODE_BUTTON_THUMBR"
        ({ buttonStates := { KEYCODE_BUTTON_THUMBR := true } } : GamepadState)
        ({} : ActionsState)).1.thumbRightActive
      = !(({} : ActionsState).thumbRightActive) ∧
    (onUse "KEYCODE_BUTTON_THUMBR"
        ({ buttonStates := { KEYCODE_BUTTON_THUMBR := true } } : GamepadState)
        ({} : ActionsState)).1.thumbLeftActive = false :=
  (thumb_latches_mutually_exclusive "KEYCODE_BUTTON_THUMBR"
    { buttonStates := { KEYCODE_BUTTON_THUMBR := true } } {}).1 rfl rfl

/-- C5: on every heartbeat tick `jogFunction` first reschedules itself with
`JOG_INTERVAL` (so once started it never stops running), and if the stored
gamepad state is empty or the pending jog vector is `(0, 0, 0)` it emits no
Command Abstraction Layer call at all. -/
theorem heartbeat_reschedules_and_zero_vector_noop (s : ActionsState) :
    (jogFunction s).head? = some (Effect.setJogTimer JOG_INTERVAL) ∧
    ((s.gamepadState = none ∨ s.axisInstructions = ⟨0, 0, 0⟩) →
      jogFunction s = [Effect.setJogTimer JOG_INTERVAL]) := by
  obtain ⟨gs, ai, tr, tl⟩ := s
  cases gs with
  | none => simp [jogFunction]
  | some g =>
    obtain ⟨x, y, z⟩ := ai
    constructor
    · by_cases h : x = 0 ∧ y = 0 ∧ z = 0 <;> simp [jogFunction, h]
    · rintro (h | h)
      · exact absurd h (by simp)
      · simp only [XYZCoords.mk.injEq] at h
        simp [jogFunction, h.1, h.2.1, h.2.2]

/-- Witness for C5 at the freshly constructed engine state (empty gamepad
state): the tick only reschedules itself. -/
theorem heartbeat_reschedules_and_zero_vector_noop_witness :
    jogFunction ({} : ActionsState) = [Effect.setJogTimer JOG_INTERVAL] :=
  (heartbeat_reschedules_and_zero_vector_noop {}).2 (Or.inl rfl)

/-- C4: whenever a composite condition enabling D-pad jogging
(`deadmanXYOnly` or `deadmanZOnly`) is active and the triggering input is a
D-pad axis, both stick latches are false once `onUse` completes. -/
theorem dpad_jog_clears_stick_latches (id : String) (st : GamepadState) (s : ActionsState)
    (hcomp : deadmanXYOnly st = true ∨ deadmanZOnly st = true)
    (hid : id = "AXIS_HAT_X" ∨ id = "AXIS_HAT_Y") :
    (onUse id st s).1.thumbLeftActive = false ∧
    (onUse id st s).1.thumbRightActive = false := by
  have hdm : deadmanXY st = true ∨ deadmanZ st = true := by
    rcases hcomp with h | h
    · exact Or.inl (by revert h; unfold deadmanXYOnly; cases deadmanXY st <;> simp)
    · exact Or.inr (by revert h; unfold deadmanZOnly; cases deadmanZ st <;> simp)
  rw [onUse_thumbLeft, onUse_thumbRight]
  unfold applyDpadSafety
  rw [if_pos ⟨by simpa using hdm, hid⟩]
  exact ⟨rfl, rfl⟩

/-- Witness for C4: a D-pad right press under L1 with both latches
previously set clears both latches. -/
theorem dpad_jog_clears_stick_latches_witness :
    (onUse "AXIS_HAT_X" ({ buttonStates := { KEYCODE_BUTTON_L1 := true } } : GamepadState)
        ({ thumbLeftActive := true } : ActionsState)).1.thumbLeftActive = false ∧
    (onUse "AXIS_HAT_X" ({ buttonStates := { KEYCODE_BUTTON_L1 := true } } : GamepadState)
        ({ thumbLeftActive := true } : ActionsState)).1.thumbRightActive = false :=
  dpad_jog_clears_stick_latches "AXIS_HAT_X"
    { buttonStates := { KEYCODE_BUTTON_L1 := true } } { thumbLeftActive := true }
    (Or.inl (by simp [deadmanXYOnly, deadmanXY, deadmanZ, deadmanSlow, deadmanFast, shiftKey]))
    (Or.inl rfl)

/- Helper facts about the composite conditions and the axis blocks, shared by
the theorems below. -/

lemma deadmanXYOnly_false_of_zOnly {st : GamepadState} (h : deadmanZOnly st = true) :
    deadmanXYOnly st = false := by
  revert h; unfold deadmanZOnly deadmanXYOnly deadmanXY deadmanZ
  cases deadmanSlow st <;> cases deadmanFast st <;> cases shiftKey st <;> simp

lemma deadmanZOnly_false_of_xyOnly {st : GamepadState} (h : deadmanXYOnly st = true) :
    deadmanZOnly st = false := by
  revert h; unfold deadmanZOnly deadmanXYOnly deadmanXY deadmanZ
  cases deadmanSlow st <;> cases deadmanFast st <;> cases shiftKey st <;> simp

lemma deadmanXY_true_of_xyOnly {st : GamepadState} (h : deadmanXYOnly st = true) :
    deadmanXY st = true := by
  revert h; unfold deadmanXYOnly; cases deadmanXY st <;> simp

lemma xAxisBlock_off (id : String) (st : GamepadState) (latch : ActionsState)
    (ai : XYZCoords) (h : deadmanXYOnly st = false) : xAxisBlock id st latch ai = (ai, []) := by
  simp [xAxisBlock, h]

lemma yAxisBlock_off (id : String) (st : GamepadState) (latch : ActionsState)
    (ai : XYZCoords) (h : deadmanXYOnly st = false) : yAxisBlock id st latch ai = (ai, []) := by
  simp [yAxisBlock, h]

lemma zAxisBlock_off (id : String) (st : GamepadState)
    (ai : XYZCoords) (h : deadmanZOnly st = false) : zAxisBlock id st ai = (ai, []) := by
  simp [zAxisBlock, h]

lemma zAxisBlock_fst_x (id : String) (st : GamepadState) (ai : XYZCoords) :
    (zAxisBlock id st ai).1.move_x_axis = ai.move_x_axis := by
  simp only [zAxisBlock]; split_ifs <;> rfl

lemma zAxisBlock_fst_y (id : String) (st : GamepadState) (ai : XYZCoords) :
    (zAxisBlock id st ai).1.move_y_axis = ai.move_y_axis := by
  simp only [zAxisBlock]; split_ifs <;> rfl

lemma yAxisBlock_fst_x (id : String) (st : GamepadState) (latch : ActionsState) (ai : XYZCoords) :
    (yAxisBlock id st latch ai).1.move_x_axis = ai.move_x_axis := by
  simp only [yAxisBlock]; split_ifs <;> rfl

lemma applyDpadSafety_latches_false (id : String) (st : GamepadState) (s : ActionsState)
    (h1 : deadmanXY st = true ∨ deadmanZ st = true)
    (h2 : id = "AXIS_HAT_X" ∨ id = "AXIS_HAT_Y") :
    (applyDpadSafety id st s).thumbLeftActive = false ∧
    (applyDpadSafety id st s).thumbRightActive = false := by
  unfold applyDpadSafety
  rw [if_pos ⟨by simpa using h1, h2⟩]
  exact ⟨rfl, rfl⟩

/-- C8: under `deadmanZOnly`, the D-pad drives only the Z component of the
pending jog vector — X and Y stay zero — and when both hat axes are nonzero
the Z component is taken from `AXIS_HAT_X` (the horizontal hat wins the tie):
a nonzero `AXIS_HAT_X` always determines the Z component, and `AXIS_HAT_Y`
does so only when `AXIS_HAT_X` is zero. -/
theorem deadmanZOnly_dpad_drives_z (id : String) (st : GamepadState) (s : ActionsState)
    (hz : deadmanZOnly st = true) :
    (onUse id st s).1.axisInstructions.move_x_axis = 0 ∧
    (onUse id st s).1.axisInstructions.move_y_axis = 0 ∧
    (st.axisStates.AXIS_HAT_X ≠ 0 →
      (onUse id st s).1.axisInstructions.move_z_axis
        = st.axisStates.AXIS_HAT_X * jogVelocityZ st) ∧
    (st.axisStates.AXIS_HAT_X = 0 → st.axisStates.AXIS_HAT_Y ≠ 0 →
      (onUse id st s).1.axisInstructions.move_z_axis
        = -(st.axisStates.AXIS_HAT_Y * jogVelocityZ st)) := by
  have hxy := deadmanXYOnly_false_of_zOnly hz
  rw [onUse_axisInstructions, xAxisBlock_off _ _ _ _ hxy, yAxisBlock_off _ _ _ _ hxy]
  refine ⟨by rw [zAxisBlock_fst_x], by rw [zAxisBlock_fst_y], ?_, ?_⟩
  · intro hx; simp [zAxisBlock, hz, hx]
  · intro hx hy; simp [zAxisBlock, hz, hx, hy]

/-- The snapshot used by the C8 witness: both deadman tiers held (so
`deadmanZOnly`) and both hat axes deflected at once. -/
def snapBothHatsZ : GamepadState :=
  { axisStates := { AXIS_HAT_X := 1, AXIS_HAT_Y := -1 },
    buttonStates := { KEYCODE_BUTTON_L1 := true, KEYCODE_BUTTON_LTRIGGER := true } }

/-- Witness for C8: with both hat axes deflected, X and Y stay zero and the Z
component comes from `AXIS_HAT_X`. -/
theorem deadmanZOnly_dpad_drives_z_witness :
    (onUse "AXIS_HAT_X" snapBothHatsZ {}).1.axisInstructions.move_x_axis = 0 ∧
    (onUse "AXIS_HAT_X" snapBothHatsZ {}).1.axisInstructions.move_y_axis = 0 ∧
    (onUse "AXIS_HAT_X" snapBothHatsZ {}).1.axisInstructions.move_z_axis
      = snapBothHatsZ.axisStates.AXIS_HAT_X * jogVelocityZ snapBothHatsZ := by
  obtain ⟨h1, h2, h3, h4⟩ := deadmanZOnly_dpad_drives_z "AXIS_HAT_X" snapBothHatsZ {}
    (by simp [deadmanZOnly, deadmanZ, deadmanSlow, deadmanFast, shiftKey, snapBothHatsZ])
  exact ⟨h1, h2, h3 (by norm_num [snapBothHatsZ])⟩

/-- The snapshot of the C6 counterexample: both deadman tiers held (so
`deadmanZOnly`, and in particular `deadmanSlow` is held) with D-pad up. -/
def snapZSlowFastHatY : GamepadState :=
  { axisStates := { AXIS_HAT_Y := 1 },
    buttonStates := { KEYCODE_BUTTON_L1 := true, KEYCODE_BUTTON_LTRIGGER := true } }

/-- C6 counterexample: the claim says the low jog/creep constants are used
exactly when `deadmanSlow` is held, for X, Y and Z alike.  But in this
snapshot `deadmanSlow` is held (L1, with LTRIGGER making it `deadmanZOnly`)
and a D-pad up press still jogs and creeps Z with the MEDIUM constants
`VZ_MED`/`CZ_MED`, because the Z constants are selected by `AXIS_HAT_X`
being nonzero, not by `deadmanSlow`. -/
theorem z_constants_ignore_deadmanSlow :
    deadmanSlow snapZSlowFastHatY = true ∧
    (onUse "AXIS_HAT_Y" snapZSlowFastHatY {}).1.axisInstructions.move_z_axis = -VZ_MED ∧
    (onUse "AXIS_HAT_Y" snapZSlowFastHatY {}).2 =
      [Effect.clearJogTimer, Effect.cal (jogGantry 0 0 (CZ_MED * -1)),
       Effect.setJogTimer CREEP_INTERVAL] ∧
    VZ_MED ≠ VZ_LOW ∧ CZ_MED ≠ CZ_LOW := by
  refine ⟨by simp [deadmanSlow, snapZSlowFastHatY], ?_, ?_, ?_, ?_⟩
  · norm_num [onUse, applyThumbToggles, applyDpadSafety, xAxisBlock, yAxisBlock, zAxisBlock,
      deadmanXYOnly, deadmanZOnly, shiftKeyOnly, unmodified, deadmanXY, deadmanZ, deadmanSlow,
      deadmanFast, shiftKey, jogVelocityZ, creepDistZ, snapZSlowFastHatY, VZ_LOW, VZ_MED,
      JOG_INTERVAL]
  · norm_num [onUse, applyThumbToggles, applyDpadSafety, xAxisBlock, yAxisBlock, zAxisBlock,
      shiftedDpadBlock, backStartBlock, abxyBlock, deadmanXYOnly, deadmanZOnly, shiftKeyOnly,
      unmodified, deadmanXY, deadmanZ, deadmanSlow, deadmanFast, shiftKey, jogVelocityZ,
      creepDistZ, snapZSlowFastHatY, jogGantry, CZ_LOW, CZ_MED, JOG_INTERVAL]
  · norm_num [VZ_LOW, VZ_MED, JOG_INTERVAL]
  · norm_num [CZ_LOW, CZ_MED]

/-- C6 (amended): `deadmanSlow` selects the low versus medium jog velocity
and creep distance for the X and Y axis vector computations alike, with no
separate fast tier; the Z axis computation instead selects its constants by
which hat axis drives it — `AXIS_HAT_X` nonzero uses the low Z constants,
and a `AXIS_HAT_Y`-driven move uses the medium Z constants — independently
of `deadmanSlow`. -/
theorem velocity_selection_by_driving_axis (st : GamepadState) (s : ActionsState) :
    (deadmanXYOnly st = true → st.axisStates.AXIS_HAT_X ≠ 0 →
      (onUse "AXIS_HAT_X" st s).1.axisInstructions.move_x_axis
        = st.axisStates.AXIS_HAT_X * (if deadmanSlow st then VXY_LOW else VXY_MED) ∧
      Effect.cal (jogGantry ((if deadmanSlow st then CXY_LOW else CXY_MED)
          * st.axisStates.AXIS_HAT_X) 0 0)
        ∈ (onUse "AXIS_HAT_X" st s).2) ∧
    (deadmanXYOnly st = true → st.axisStates.AXIS_HAT_Y ≠ 0 →
      (onUse "AXIS_HAT_Y" st s).1.axisInstructions.move_y_axis
        = -(st.axisStates.AXIS_HAT_Y * (if deadmanSlow st then VXY_LOW else VXY_MED)) ∧
      Effect.cal (jogGantry 0 ((if deadmanSlow st then CXY_LOW else CXY_MED)
          * -st.axisStates.AXIS_HAT_Y) 0)
        ∈ (onUse "AXIS_HAT_Y" st s).2) ∧
    (deadmanZOnly st = true → st.axisStates.AXIS_HAT_X ≠ 0 →
      (onUse "AXIS_HAT_X" st s).1.axisInstructions.move_z_axis
        = st.axisStates.AXIS_HAT_X * VZ_LOW ∧
      Effect.cal (jogGantry 0 0 (CZ_LOW * st.axisStates.AXIS_HAT_X))
        ∈ (onUse "AXIS_HAT_X" st s).2) ∧
    (deadmanZOnly st = true → st.axisStates.AXIS_HAT_X = 0 → st.axisStates.AXIS_HAT_Y ≠ 0 →
      (onUse "AXIS_HAT_Y" st s).1.axisInstructions.move_z_axis
        = -(st.axisStates.AXIS_HAT_Y * VZ_MED) ∧
      Effect.cal (jogGantry 0 0 (CZ_MED * -st.axisStates.AXIS_HAT_Y))
        ∈ (onUse "AXIS_HAT_Y" st s).2) := by
  refine ⟨?_, ?_, ?_, ?_⟩
  · intro hxy hx
    obtain ⟨hl, hr⟩ := applyDpadSafety_latches_false "AXIS_HAT_X" st
      (applyThumbToggles "AXIS_HAT_X" st.buttonStates s)
      (Or.inl (deadmanXY_true_of_xyOnly hxy)) (Or.inl rfl)
    have hzo := deadmanZOnly_false_of_xyOnly hxy
    constructor
    · rw [onUse_axisInstructions]
      rw [zAxisBlock_off _ _ _ hzo, yAxisBlock_fst_x]
      simp [xAxisBlock, hxy, hx, hl, hr, jogVelocity]
    · rw [onUse_effects]
      have hx2 : (xAxisBlock "AXIS_HAT_X" st
          (applyDpadSafety "AXIS_HAT_X" st (applyThumbToggles "AXIS_HAT_X" st.buttonStates s))
          {}).2
          = [Effect.clearJogTimer,
             Effect.cal (jogGantry (creepDist st * st.axisStates.AXIS_HAT_X) 0 0),
             Effect.setJogTimer CREEP_INTERVAL] := by
        simp [xAxisBlock, hxy, hx]
      simp [hx2, creepDist]
  · intro hxy hy
    obtain ⟨hl, hr⟩ := applyDpadSafety_latches_false "AXIS_HAT_Y" st
      (applyThumbToggles "AXIS_HAT_Y" st.buttonStates s)
      (Or.inl (deadmanXY_true_of_xyOnly hxy)) (Or.inr rfl)
    have hzo := deadmanZOnly_false_of_xyOnly hxy
    constructor
    · rw [onUse_axisInstructions]
      rw [zAxisBlock_off _ _ _ hzo]
      simp [yAxisBlock, hxy, hy, hl, hr, jogVelocity]
    · rw [onUse_effects]
      have hy2 : (yAxisBlock "AXIS_HAT_Y" st
          (applyDpadSafety "AXIS_HAT_Y" st (applyThumbToggles "AXIS_HAT_Y" st.buttonStates s))
          (xAxisBlock "AXIS_HAT_Y" st
            (applyDpadSafety "AXIS_HAT_Y" st (applyThumbToggles "AXIS_HAT_Y" st.buttonStates s))
            {}).1).2
          = [Effect.clearJogTimer,
             Effect.cal (jogGantry 0 (creepDist st * -st.axisStates.AXIS_HAT_Y) 0),
             Effect.setJogTimer CREEP_INTERVAL] := by
        simp [yAxisBlock, hxy, hy]
      simp [hy2, creepDist]
  · intro hz hx
    have hxy := deadmanXYOnly_false_of_zOnly hz
    constructor
    · rw [onUse_axisInstructions, xAxisBlock_off _ _ _ _ hxy, yAxisBlock_off _ _ _ _ hxy]
      simp [zAxisBlock, hz, hx, jogVelocityZ]
    · rw [onUse_effects]
      have hz2 : (zAxisBlock "AXIS_HAT_X" st
          (yAxisBlock "AXIS_HAT_X" st
            (applyDpadSafety "AXIS_HAT_X" st (applyThumbToggles "AXIS_HAT_X" st.buttonStates s))
            (xAxisBlock "AXIS_HAT_X" st
              (applyDpadSafety "AXIS_HAT_X" st (applyThumbToggles "AXIS_HAT_X" st.buttonStates s))
              {}).1).1).2
          = [Effect.clearJogTimer,
             Effect.cal (jogGantry 0 0 (creepDistZ st * st.axisStates.AXIS_HAT_X)),
             Effect.setJogTimer CREEP_INTERVAL] := by
        simp [zAxisBlock, hz, hx]
      simp [hz2, creepDistZ, hx]
  · intro hz hx hy
    have hxy := deadmanXYOnly_false_of_zOnly hz
    constructor
    · rw [onUse_axisInstructions, xAxisBlock_off _ _ _ _ hxy, yAxisBlock_off _ _ _ _ hxy]
      simp [zAxisBlock, hz, hx, hy, jogVelocityZ]
    · rw [onUse_effects]
      have hz2 : (zAxisBlock "AXIS_HAT_Y" st
          (yAxisBlock "AXIS_HAT_Y" st
            (applyDpadSafety "AXIS_HAT_Y" st (applyThumbToggles "AXIS_HAT_Y" st.buttonStates s))
            (xAxisBlock "AXIS_HAT_Y" st
              (applyDpadSafety "AXIS_HAT_Y" st (applyThumbToggles "AXIS_HAT_Y" st.buttonStates s))
              {}).1).1).2
          = [Effect.clearJogTimer,
             Effect.cal (jogGantry 0 0 (creepDistZ st * -st.axisStates.AXIS_HAT_Y)),
             Effect.setJogTimer CREEP_INTERVAL] := by
        simp [zAxisBlock, hz, hx, hy]
      simp [hz2, creepDistZ, hx]

/-- The snapshot used by the C6 witness for the X axis: L1 held with D-pad
right. -/
def snapXYLowCreep : GamepadState :=
  { axisStates := { AXIS_HAT_X := 1 }, buttonStates := { KEYCODE_BUTTON_L1 := true } }

/-- The snapshot used by the C6 witness for the Y axis: L1 held with D-pad
up. -/
def snapHatYLowCreep : GamepadState :=
  { axisStates := { AXIS_HAT_Y := 1 }, buttonStates := { KEYCODE_BUTTON_L1 := true } }

/-- Witness for the amended C6 at a slow X jog and a slow Y jog: the low
X/Y constants are selected because `deadmanSlow` is held. -/
theorem velocity_selection_by_driving_axis_witness :
    ((onUse "AXIS_HAT_X" snapXYLowCreep {}).1.axisInstructions.move_x_axis
      = snapXYLowCreep.axisStates.AXIS_HAT_X
        * (if deadmanSlow snapXYLowCreep then VXY_LOW else VXY_MED) ∧
     Effect.cal (jogGantry ((if deadmanSlow snapXYLowCreep then CXY_LOW else CXY_MED)
        * snapXYLowCreep.axisStates.AXIS_HAT_X) 0 0)
      ∈ (onUse "AXIS_HAT_X" snapXYLowCreep {}).2) ∧
    ((onUse "AXIS_HAT_Y" snapHatYLowCreep {}).1.axisInstructions.move_y_axis
      = -(snapHatYLowCreep.axisStates.AXIS_HAT_Y
        * (if deadmanSlow snapHatYLowCreep then VXY_LOW else VXY_MED)) ∧
     Effect.cal (jogGantry 0 ((if deadmanSlow snapHatYLowCreep then CXY_LOW else CXY_MED)
        * -snapHatYLowCreep.axisStates.AXIS_HAT_Y) 0)
      ∈ (onUse "AXIS_HAT_Y" snapHatYLowCreep {}).2) :=
  ⟨(velocity_selection_by_driving_axis snapXYLowCreep {}).1
    (by simp [deadmanXYOnly, deadmanXY, deadmanZ, deadmanSlow, deadmanFast, shiftKey,
      snapXYLowCreep])
    (by norm_num [snapXYLowCreep]),
   (velocity_selection_by_driving_axis snapHatYLowCreep {}).2.1
    (by simp [deadmanXYOnly, deadmanXY, deadmanZ, deadmanSlow, deadmanFast, shiftKey,
      snapHatYLowCreep])
    (by norm_num [snapHatYLowCreep])⟩

/-- C7 counterexample: in the snapshot with L1 = 1 and R1 = 1 (and nothing
else pressed) the code computes `deadmanZ = false` and `deadmanXYOnly = true`,
because R1 contributes to `deadmanSlow`, not to `deadmanFast` — contradicting
the claimed `deadmanZ = true`, `deadmanXYOnly = false`. -/
theorem l1_r1_yields_deadmanXY_not_z :
    deadmanZ { buttonStates := { KEYCODE_BUTTON_L1 := true, KEYCODE_BUTTON_R1 := true } }
      = false ∧
    deadmanXYOnly { buttonStates := { KEYCODE_BUTTON_L1 := true, KEYCODE_BUTTON_R1 := true } }
      = true := by
  constructor <;>
    simp [deadmanZ, deadmanXYOnly, deadmanXY, deadmanSlow, deadmanFast, shiftKey]

/-- C7 (amended): for every snapshot in which a slow deadman key (L1) and a
fast deadman key (the left trigger button) are both pressed, the modifier
computation yields `deadmanZ = true` and `deadmanXYOnly = false` (and
`deadmanZOnly` when HOME is released), so any event under this snapshot
routes D-pad motion to the Z-axis computation and never contributes to the
X or Y components of the pending jog vector. -/
theorem slow_plus_fast_routes_to_z (st : GamepadState) (s : ActionsState) (id : String)
    (hL1 : st.buttonStates.KEYCODE_BUTTON_L1 = true)
    (hLT : st.buttonStates.KEYCODE_BUTTON_LTRIGGER = true) :
    deadmanZ st = true ∧ deadmanXYOnly st = false ∧
    (shiftKey st = false → deadmanZOnly st = true) ∧
    (onUse id st s).1.axisInstructions.move_x_axis = 0 ∧
    (onUse id st s).1.axisInstructions.move_y_axis = 0 := by
  have hz : deadmanZ st = true := by simp [deadmanZ, deadmanSlow, deadmanFast, hL1, hLT]
  have hxy : deadmanXY st = false := by simp [deadmanXY, hz]
  have hxyo : deadmanXYOnly st = false := by simp [deadmanXYOnly, hxy]
  refine ⟨hz, hxyo, fun hsh => by simp [deadmanZOnly, hz, hsh], ?_, ?_⟩
  · rw [onUse_axisInstructions, xAxisBlock_off _ _ _ _ hxyo, yAxisBlock_off _ _ _ _ hxyo,
      zAxisBlock_fst_x]
  · rw [onUse_axisInstructions, xAxisBlock_off _ _ _ _ hxyo, yAxisBlock_off _ _ _ _ hxyo,
      zAxisBlock_fst_y]

/-- The snapshot used by the C7 witness: L1 and the left trigger button. -/
def snapSlowFast : GamepadState :=
  { buttonStates := { KEYCODE_BUTTON_L1 := true, KEYCODE_BUTTON_LTRIGGER := true } }

/-- Witness for the amended C7 at a concrete slow-plus-fast snapshot. -/
theorem slow_plus_fast_routes_to_z_witness :
    deadmanZ snapSlowFast = true ∧ deadmanXYOnly snapSlowFast = false ∧
    (shiftKey snapSlowFast = false → deadmanZOnly snapSlowFast = true) ∧
    (onUse "AXIS_HAT_X" snapSlowFast {}).1.axisInstructions.move_x_axis = 0 ∧
    (onUse "AXIS_HAT_X" snapSlowFast {}).1.axisInstructions.move_y_axis = 0 :=
  slow_plus_fast_routes_to_z snapSlowFast {} "AXIS_HAT_X" rfl rfl

/- Embedding of src/src/gcode-shapeoko.ts: the probe record and the
Shapeoko-dialect sender operations the claims refer to. -/

/-- Digits of a decimal string to a natural number (helper for `jsNumber`). -/
def digitsToNat (cs : List Char) : ℕ :=
  cs.foldl (fun n c => 10 * n + (c.toNat - 48)) 0

/-- JavaScript `Number(s)` restricted to the shapes that occur in grbl PRB
reports: an optional leading minus, decimal digits, and an optional decimal
point.  `none` models `NaN`; the empty string converts to `0` as in
JavaScript.  (Exponent, hexadecimal and whitespace forms never occur in
these reports and are modelled as `NaN`.) -/
def jsNumber (cs : List Char) : Option ℚ :=
  if cs = [] then some 0
  else
    let p : ℚ × List Char := match cs with
      | '-' :: t => (-1, t)
      | _ => (1, cs)
    let intPart := p.2.takeWhile Char.isDigit
    let rest := p.2.dropWhile Char.isDigit
    match rest with
    | [] => if intPart = [] then none else some (p.1 * (digitsToNat intPart : ℚ))
    | '.' :: frac =>
      if frac.all Char.isDigit ∧ ¬(intPart = [] ∧ frac = []) then
        some (p.1 * ((digitsToNat intPart : ℚ) + (digitsToNat frac : ℚ) / 10 ^ frac.length))
      else none
    | _ => none

/-- JavaScript `Boolean(n)` on a number: false exactly for 0 and NaN. -/
def jsTruthy : Option ℚ → Bool
  | some q => decide (q ≠ 0)
  | none => false

/-- `class ZProbeRecord` of gcode-shapeoko.ts.  The coordinates are JS
numbers, so `none` models `NaN`. -/
structure ZProbeRecord where
  x : Option ℚ
  y : Option ℚ
  z : Option ℚ
  success : Bool
  deriving DecidableEq

/-- The `ZProbeRecord` constructor: `x = y = z = 0`, `success = false`. -/
def ZProbeRecord.new : ZProbeRecord := ⟨some 0, some 0, some 0, false⟩

/-- Whether a character list ends with a colon, a digit and a closing
bracket (helper for `ZProbeRecord.isValidString`). -/
def endsColonDigitBracket (cs : List Char) : Bool :=
  match cs.reverse with
  | ']' :: d :: ':' :: _ => d.isDigit
  | _ => false

/-- `ZProbeRecord.isValidString`: whether
`data.match(/^\[PRB:.*:\d\]$/) != null` (serial reports are single lines, so
`.` is modelled as any character). -/
def ZProbeRecord.isValidString (data : String) : Bool :=
  match data.data with
  | '[' :: 'P' :: 'R' :: 'B' :: ':' :: rest => endsColonDigitBracket rest
  | _ => false

/-- Group 1 of `data.match(/:(.*):/)` on a string with at least two colons:
the greedy `.*` captures the characters strictly between the first and the
last colon. -/
def betweenFirstLastColon (cs : List Char) : List Char :=
  let afterFirst := (cs.dropWhile (· ≠ ':')).drop 1
  ((afterFirst.reverse.dropWhile (· ≠ ':')).drop 1).reverse

/-- Group 1 of `data.match(/.*:(\d)/)`: the greedy `.*` makes it the digit
right after the LAST colon that is immediately followed by a digit.  The
scan runs over the reversed character list. -/
def revColonDigit : List Char → Option Char
  | d :: ':' :: rest => if d.isDigit then some d else revColonDigit (':' :: rest)
  | _ :: rest => revColonDigit rest
  | [] => none

/-- `ZProbeRecord.updateFromString`: on a valid PRB report, set x, y and z
from the comma-separated middle section and `success` from the trailing
digit — all four fields are always overwritten.  An invalid string only logs
an error and leaves the record unchanged.  (On a valid string both regex
matches succeed, so the `none` fallbacks inside are unreachable there; on an
invalid string the source would throw before the guard returns, which the
guard makes unreachable as well.) -/
def ZProbeRecord.updateFromString (r : ZProbeRecord) (data : String) : ZProbeRecord :=
  if ZProbeRecord.isValidString data = false then r
  else
    let cs := data.data
    let values := (betweenFirstLastColon cs).splitOn ','
    { x := values[0]?.bind jsNumber
      y := values[1]?.bind jsNumber
      z := values[2]?.bind jsNumber
      success := jsTruthy ((revColonDigit cs.reverse).bind (fun d => jsNumber [d])) }

/-- The `serialport:read` subscription installed by the `GcodeShapeoko`
constructor, restricted to its effect on the probe record: a valid PRB line
updates the record.  (When the updated record has `success` set, the
constructor additionally emits the G10 offset sequence; no claim below
depends on those directives.) -/
def onSerialRead (r : ZProbeRecord) (data : String) : ZProbeRecord :=
  if ZProbeRecord.isValidString data then r.updateFromString data else r

/-- One `sendMessage('command', 'gcode', ...)` issued by
`GcodeShapeoko.moveGantryZProbePos`; the payloads are kept structurally
(the source interpolates `this.zsafepos` and the recorded x/y into the two
command strings). -/
inductive ShapeokoMsg where
  | gotoZSafe
  | gotoProbeXY (x y : Option ℚ)
  deriving DecidableEq

/-- `GcodeShapeoko.moveGantryZProbePos`: sends the two positioning commands
only when `zProbeRecord.success` is set; otherwise sends nothing. -/
def GcodeShapeoko.moveGantryZProbePos (r : ZProbeRecord) : List ShapeokoMsg :=
  if r.success then [ShapeokoMsg.gotoZSafe, ShapeokoMsg.gotoProbeXY r.x r.y] else []

/- Concrete evaluations of the JS number conversions used by the probe-line
theorems. -/

lemma jsNumber_one : jsNumber ['1', '.', '0', '0', '0'] = some 1 := by
  rw [show jsNumber ['1', '.', '0', '0', '0']
      = some ((1 : ℚ) * ((digitsToNat ['1'] : ℚ) + (digitsToNat ['0', '0', '0'] : ℚ) / 10 ^ 3))
    from rfl, show digitsToNat ['1'] = 1 from rfl, show digitsToNat ['0', '0', '0'] = 0 from rfl]
  norm_num

lemma jsNumber_two : jsNumber ['2', '.', '0', '0', '0'] = some 2 := by
  rw [show jsNumber ['2', '.', '0', '0', '0']
      = some ((1 : ℚ) * ((digitsToNat ['2'] : ℚ) + (digitsToNat ['0', '0', '0'] : ℚ) / 10 ^ 3))
    from rfl, show digitsToNat ['2'] = 2 from rfl, show digitsToNat ['0', '0', '0'] = 0 from rfl]
  norm_num

lemma jsNumber_neg_three : jsNumber ['-', '3', '.', '0', '0', '0'] = some (-3) := by
  rw [show jsNumber ['-', '3', '.', '0', '0', '0']
      = some ((-1 : ℚ) * ((digitsToNat ['3'] : ℚ) + (digitsToNat ['0', '0', '0'] : ℚ) / 10 ^ 3))
    from rfl, show digitsToNat ['3'] = 3 from rfl, show digitsToNat ['0', '0', '0'] = 0 from rfl]
  norm_num

lemma jsNumber_nine : jsNumber ['9', '.', '0', '0', '0'] = some 9 := by
  rw [show jsNumber ['9', '.', '0', '0', '0']
      = some ((1 : ℚ) * ((digitsToNat ['9'] : ℚ) + (digitsToNat ['0', '0', '0'] : ℚ) / 10 ^ 3))
    from rfl, show digitsToNat ['9'] = 9 from rfl, show digitsToNat ['0', '0', '0'] = 0 from rfl]
  norm_num

lemma jsTruthy_digit_one : jsTruthy (jsNumber ['1']) = true := by
  rw [show jsNumber ['1'] = some ((1 : ℚ) * (digitsToNat ['1'] : ℚ)) from rfl,
    show digitsToNat ['1'] = 1 from rfl]
  simp [jsTruthy]

lemma jsTruthy_digit_zero : jsTruthy (jsNumber ['0']) = false := by
  rw [show jsNumber ['0'] = some ((1 : ℚ) * (digitsToNat ['0'] : ℚ)) from rfl,
    show digitsToNat ['0'] = 0 from rfl]
  simp [jsTruthy]

/-- C9 counterexample: a valid PRB line with trailing success flag 0 does NOT
leave the previously captured position unchanged — it overwrites all three
coordinates with the newly parsed values (while clearing `success`).  After
capturing (1, 2, -3) with flag 1, the line `"[PRB:9.000,9.000,9.000:0]"`
replaces the capture with (9, 9, 9), and 9 ≠ 1. -/
theorem probe_flag_zero_overwrites :
    onSerialRead ZProbeRecord.new "[PRB:1.000,2.000,-3.000:1]"
      = { x := some 1, y := some 2, z := some (-3), success := true } ∧
    onSerialRead { x := some 1, y := some 2, z := some (-3), success := true }
        "[PRB:9.000,9.000,9.000:0]"
      = { x := some 9, y := some 9, z := some 9, success := false } ∧
    (some (9 : ℚ)) ≠ (some (1 : ℚ)) := by
  refine ⟨?_, ?_, by norm_num⟩
  · rw [show onSerialRead ZProbeRecord.new "[PRB:1.000,2.000,-3.000:1]"
        = { x := jsNumber ['1', '.', '0', '0', '0'], y := jsNumber ['2', '.', '0', '0', '0'],
            z := jsNumber ['-', '3', '.', '0', '0', '0'],
            success := jsTruthy (jsNumber ['1']) } from rfl,
      jsNumber_one, jsNumber_two, jsNumber_neg_three, jsTruthy_digit_one]
  · rw [show onSerialRead { x := some 1, y := some 2, z := some (-3), success := true }
          "[PRB:9.000,9.000,9.000:0]"
        = { x := jsNumber ['9', '.', '0', '0', '0'], y := jsNumber ['9', '.', '0', '0', '0'],
            z := jsNumber ['9', '.', '0', '0', '0'],
            success := jsTruthy (jsNumber ['0']) } from rfl,
      jsNumber_nine, jsTruthy_digit_zero]

/-- C9 (amended): a PRB status line with trailing flag 1 sets the probe
record to the parsed coordinates with `success = true` (ProbeRecorded); a
line with trailing flag 0 does not transition to ProbeRecorded
(`success = false`) but still overwrites the captured coordinates with the
newly parsed values; only a line that does not match the PRB format leaves
the record entirely unchanged. -/
theorem probe_line_parsing (r : ZProbeRecord) :
    onSerialRead r "[PRB:1.000,2.000,-3.000:1]"
      = { x := some 1, y := some 2, z := some (-3), success := true } ∧
    onSerialRead r "[PRB:1.000,2.000,-3.000:0]"
      = { x := some 1, y := some 2, z := some (-3), success := false } ∧
    (∀ data : String, ZProbeRecord.isValidString data = false → onSerialRead r data = r) := by
  refine ⟨?_, ?_, ?_⟩
  · rw [show onSerialRead r "[PRB:1.000,2.000,-3.000:1]"
        = { x := jsNumber ['1', '.', '0', '0', '0'], y := jsNumber ['2', '.', '0', '0', '0'],
            z := jsNumber ['-', '3', '.', '0', '0', '0'],
            success := jsTruthy (jsNumber ['1']) } from rfl,
      jsNumber_one, jsNumber_two, jsNumber_neg_three, jsTruthy_digit_one]
  · rw [show onSerialRead r "[PRB:1.000,2.000,-3.000:0]"
        = { x := jsNumber ['1', '.', '0', '0', '0'], y := jsNumber ['2', '.', '0', '0', '0'],
            z := jsNumber ['-', '3', '.', '0', '0', '0'],
            success := jsTruthy (jsNumber ['0']) } from rfl,
      jsNumber_one, jsNumber_two, jsNumber_neg_three, jsTruthy_digit_zero]
  · intro data h
    simp [onSerialRead, h]

/-- Witness for the amended C9: a non-PRB serial line leaves the fresh
record unchanged. -/
theorem probe_line_parsing_witness :
    onSerialRead ZProbeRecord.new "ok" = ZProbeRecord.new :=
  (probe_line_parsing ZProbeRecord.new).2.2 "ok" rfl

/-- C10: `GcodeShapeoko.moveGantryZProbePos` sends no directives at all
unless a successful probe capture has been recorded (`success = true`); in
particular it is a no-op on the freshly constructed record, which is
initialized with `success = false`. -/
theorem move_to_probe_pos_requires_success (r : ZProbeRecord) :
    (r.success = false → GcodeShapeoko.moveGantryZProbePos r = []) ∧
    ZProbeRecord.new.success = false ∧
    GcodeShapeoko.moveGantryZProbePos ZProbeRecord.new = [] := by
  refine ⟨?_, rfl, rfl⟩
  intro h
  simp [GcodeShapeoko.moveGantryZProbePos, h]

/-- Witness for C10: the fresh record sends nothing. -/
theorem move_to_probe_pos_requires_success_witness :
    GcodeShapeoko.moveGantryZProbePos ZProbeRecord.new = [] :=
  (move_to_probe_pos_requires_success ZProbeRecord.new).1 rfl

end Pendant
